import Mathlib

/-!
# Aux1Tr4vel: the `Map` and `Header` views

A shallow embedding of `src/components/Map/Map.jsx` and
`src/components/Header/Header.jsx`.

* JavaScript values are the inductive `JSVal`; objects are association
  lists of own properties, functions are opaque identities.
* A render is a function from the props and the ambient environment to
  `Except JSError Element`: a JavaScript exception raised while the JSX
  expression is evaluated is the `error` case.
* The drag-end handler is a step on an explicit trace of observable
  events (SDK method calls and invocations of the parent callbacks).
-/

namespace Aux1Tr4vel

/-! ## JavaScript values -/

/-- JavaScript Number values. `real q` is the Number value for the real
number `q` (the double nearest to `q`; rounding is not modelled because
the program does no arithmetic), so two different `real` terms may denote
the same double. The sign of zero is not tracked. -/
inductive JSNum where
  | nan
  | posInf
  | negInf
  | real (q : ℚ)
  deriving DecidableEq

/-- JavaScript values that can reach the two components: primitives,
function values (told apart by their `name` property only) and plain data
objects with the default prototype, given by their own properties. -/
inductive JSVal where
  | undefined
  | null
  | bool (b : Bool)
  | num (n : JSNum)
  | str (s : String)
  | fn (name : String)
  | obj (props : List (String × JSVal))

/-- JavaScript exceptions raised by the modelled code; all are TypeErrors,
told apart by the expression that raised them. -/
inductive JSError where
  | readOfNullish (base : String) (prop : String)
  | notAFunction (callee : String)
  deriving DecidableEq, Repr

/-- Own-property lookup on an object literal: the first binding of `k`,
`undefined` when there is none. -/
def lookupProp (k : String) : List (String × JSVal) → JSVal
  | [] => .undefined
  | (k', v) :: rest => if k' = k then v else lookupProp k rest

/-- Whether the value is `undefined` or `null`. -/
def JSVal.isNullish : JSVal → Bool
  | .undefined => true
  | .null => true
  | _ => false

/-- Whether the value is callable. -/
def JSVal.isFunction : JSVal → Bool
  | .fn _ => true
  | _ => false

/-- Value of the property `prop` of a value that is neither `undefined`
nor `null`, for the property names read by the components (`name`,
`latitude`, `longitude`, `lat`, `lng`): an own property of an object, the
`name` of a function; booleans, numbers and strings have none of them, so
the read is `undefined`. -/
def JSVal.ownProp (base : JSVal) (prop : String) : JSVal :=
  match base with
  | .obj props => lookupProp prop props
  | .fn name => if prop = "name" then .str name else .undefined
  | _ => .undefined

/-- Property read `base.prop` (as in `place.latitude`). Reading from
`undefined` or `null` raises a TypeError. -/
def JSVal.get (base : JSVal) (baseName prop : String) : Except JSError JSVal :=
  if base.isNullish then .error (.readOfNullish baseName prop)
  else .ok (base.ownProp prop)

/-- Default value of a destructured parameter (`x = d`): the default is
taken exactly when the passed value is `undefined`. -/
def JSVal.orDefault (v d : JSVal) : JSVal :=
  match v with
  | .undefined => d
  | _ => v

/-! ## `Number(...)`: ECMAScript ToNumber -/

/-- StrWhiteSpaceChar of ECMAScript: WhiteSpace and LineTerminator code points. -/
def isStrWhiteSpaceChar (c : Char) : Bool :=
  let n := c.toNat
  n = 0x09 || n = 0x0A || n = 0x0B || n = 0x0C || n = 0x0D || n = 0x20 ||
  n = 0xA0 || n = 0x1680 || (0x2000 ≤ n && n ≤ 0x200A) || n = 0x2028 ||
  n = 0x2029 || n = 0x202F || n = 0x205F || n = 0x3000 || n = 0xFEFF

/-- Strip leading and trailing StrWhiteSpace. -/
def trimStrWhiteSpace (cs : List Char) : List Char :=
  ((cs.dropWhile isStrWhiteSpaceChar).reverse.dropWhile isStrWhiteSpaceChar).reverse

/-- Value of a digit in the given radix, if the character is one. -/
def digitValue (radix : Nat) (c : Char) : Option Nat :=
  let n := c.toNat
  let v :=
    if 48 ≤ n ∧ n ≤ 57 then some (n - 48)
    else if 97 ≤ n ∧ n ≤ 102 then some (n - 87)
    else if 65 ≤ n ∧ n ≤ 70 then some (n - 55)
    else none
  match v with
  | some d => if d < radix then some d else none
  | none => none

/-- Mathematical value of a non-empty digit string in the given radix;
`none` if it is empty or holds a non-digit. -/
def digitsValue (radix : Nat) (cs : List Char) : Option Nat :=
  match cs with
  | [] => none
  | _ => cs.foldlM (fun acc c => (digitValue radix c).map (fun d => acc * radix + d)) 0

/-- Mathematical value of a possibly empty decimal digit string. -/
def optDigitsValue (cs : List Char) : Option Nat :=
  match cs with
  | [] => some 0
  | _ => digitsValue 10 cs

/-- ExponentPart, optional: empty input is exponent 0, otherwise
`e` or `E`, an optional sign and at least one decimal digit. -/
def exponentValue (cs : List Char) : Option Int :=
  match cs with
  | [] => some 0
  | c :: rest =>
    if c = 'e' ∨ c = 'E' then
      match rest with
      | '+' :: ds => (digitsValue 10 ds).map Int.ofNat
      | '-' :: ds => (digitsValue 10 ds).map (fun n => - Int.ofNat n)
      | ds => (digitsValue 10 ds).map Int.ofNat
    else none

/-- Parse tree of a StrNumericLiteral, reduced to what its value depends on. -/
inductive NumericLiteral where
  | empty
  | nonDecimal (n : Nat)
  | infinity (negative : Bool)
  | decimal (negative : Bool) (intVal fracVal fracLen : Nat) (exp : Int)
  deriving DecidableEq

/-- StrUnsignedDecimalLiteral: `Infinity`, or decimal digits with an
optional fraction and exponent (at least one digit before or after the
point). -/
def unsignedDecimalLiteral (negative : Bool) (cs : List Char) : Option NumericLiteral :=
  if cs = "Infinity".toList then some (.infinity negative)
  else
    let isDec := fun c => (digitValue 10 c).isSome
    let intPart := cs.takeWhile isDec
    let rest := cs.dropWhile isDec
    let fracPart := match rest with
      | '.' :: r => r.takeWhile isDec
      | _ => []
    let tail := match rest with
      | '.' :: r => r.dropWhile isDec
      | _ => rest
    if intPart = [] ∧ fracPart = [] then none
    else
      match optDigitsValue intPart, optDigitsValue fracPart, exponentValue tail with
      | some i, some f, some e => some (.decimal negative i f fracPart.length e)
      | _, _, _ => none

/-- NonDecimalIntegerLiteral: `0x`, `0o` or `0b` (either case) followed by
at least one digit of that radix; no sign is allowed. -/
def nonDecimalValue (cs : List Char) : Option Nat :=
  match cs with
  | '0' :: c :: ds =>
    if c = 'x' ∨ c = 'X' then digitsValue 16 ds
    else if c = 'o' ∨ c = 'O' then digitsValue 8 ds
    else if c = 'b' ∨ c = 'B' then digitsValue 2 ds
    else none
  | _ => none

/-- Parse of a string against StringNumericLiteral: `none` when the text
does not match the grammar. Empty and whitespace-only text matches. -/
def parseStringNumericLiteral (cs : List Char) : Option NumericLiteral :=
  match trimStrWhiteSpace cs with
  | [] => some .empty
  | t =>
    match nonDecimalValue t with
    | some n => some (.nonDecimal n)
    | none =>
      match t with
      | '+' :: u => unsignedDecimalLiteral false u
      | '-' :: u => unsignedDecimalLiteral true u
      | u => unsignedDecimalLiteral false u

/-- StringNumericValue: the Number value of a parsed literal. -/
def NumericLiteral.value : NumericLiteral → JSNum
  | .empty => .real 0
  | .nonDecimal n => .real n
  | .infinity false => .posInf
  | .infinity true => .negInf
  | .decimal negative i f len e =>
    let mv : ℚ := ((i : ℚ) + (f : ℚ) / (10 : ℚ) ^ len) * (10 : ℚ) ^ e
    .real (if negative then -mv else mv)

/-- ECMAScript StringToNumber: NaN when the text is not a StringNumericLiteral. -/
def StringToNumber (s : String) : JSNum :=
  match parseStringNumericLiteral s.toList with
  | some l => l.value
  | none => .nan

/-- The call `Number(v)` (ToNumber). A plain object or a function (with
the inherited `valueOf` and `toString`) converts through its default
string form, which is never a numeric literal, hence NaN. -/
def Number : JSVal → JSNum
  | .undefined => .nan
  | .null => .real 0
  | .bool true => .real 1
  | .bool false => .real 0
  | .num n => n
  | .str s => StringToNumber s
  | .fn _ => .nan
  | .obj _ => .nan

/-! ## React elements -/

/-- React element tree as produced by evaluating a JSX expression: text
children, and elements with a type, an optional key, props and children.
A child expression that is an array contributes its elements in order; a
child expression that is `undefined` contributes nothing. -/
inductive Element where
  | text (s : String)
  | node (type : String) (key : Option Nat) (props : List (String × JSVal))
      (children : List Element)

/-- React key of an element. -/
def Element.key : Element → Option Nat
  | .text _ => none
  | .node _ k _ _ => k

/-- Value of a prop of an element (`undefined` when it is not passed). -/
def Element.prop (name : String) : Element → JSVal
  | .text _ => .undefined
  | .node _ _ props _ => lookupProp name props

/-- Whether a prop is passed to the element at all. -/
def Element.hasProp (name : String) : Element → Bool
  | .text _ => false
  | .node _ _ props _ => props.any (fun kv => kv.1 = name)

mutual
/-- All elements of the given type in the tree, in document order. -/
def Element.findAll (ty : String) : Element → List Element
  | .text _ => []
  | .node t k props cs =>
    (if t = ty then [Element.node t k props cs] else []) ++ findAllList ty cs
/-- All elements of the given type in a list of siblings, in document order. -/
def findAllList (ty : String) : List Element → List Element
  | [] => []
  | c :: cs => c.findAll ty ++ findAllList ty cs
end

mutual
/-- All text nodes of the tree, in document order. -/
def Element.texts : Element → List String
  | .text s => [s]
  | .node _ _ _ cs => textsList cs
/-- All text nodes in a list of siblings, in document order. -/
def textsList : List Element → List String
  | [] => []
  | c :: cs => c.texts ++ textsList cs
end

/-! ## `components/Map/Map.jsx` -/

/-- The `places` prop: omitted, `null`, or an array of entries. -/
inductive PlacesProp where
  | undefined
  | null
  | array (entries : List JSVal)

/-- Props of the `Map` component. -/
structure MapProps where
  coordinates : JSVal := .undefined
  places : PlacesProp := .undefined
  setCoordinates : JSVal := .undefined
  setBounds : JSVal := .undefined
  onChildClick : JSVal := .undefined

/-- The mapping SDK namespace `window.google` once loaded:
`Size w h` is the object built by `new window.google.maps.Size(w, h)`. -/
structure GoogleSDK where
  Size : JSVal → JSVal → JSVal

/-- Ambient inputs of a render of `Map`: the global `window.google`
(`none` while the SDK script has not loaded), the viewport width in CSS
pixels, the build-time API key and the class names returned by
`useStyles()` (from `./styles`). -/
structure Env where
  google : Option GoogleSDK
  viewportWidth : Nat
  apiKey : JSVal
  classes : List (String × JSVal)

/-- Media queries used by the component. -/
inductive MediaQuery where
  | minWidth (px : Nat)

/-- The hook `useMediaQuery(query)`: whether the query matches the
viewport (the value the hook settles on for that viewport).
`(min-width:Npx)` matches when the width is at least `N`. -/
def useMediaQuery (q : MediaQuery) (viewportWidth : Nat) : Bool :=
  match q with
  | .minWidth px => decide (px ≤ viewportWidth)

/-- Style of the map container. -/
def containerStyle : JSVal :=
  .obj [("width", .str "100%"), ("height", .str "85vh")]

/-- Fallback center location (New Delhi). -/
def defaultCenter : JSVal :=
  .obj [("lat", .num (.real 28.6139)), ("lng", .num (.real 77.209))]

/-- URL of the custom marker icon. -/
def markerIconUrl : String :=
  "https://maps.gstatic.com/mapfiles/api-3/images/spotlight-poi2.png"

/-- The expression `new window.google.maps.Size(30, 30)`. -/
def newMarkerSize (env : Env) : Except JSError JSVal :=
  match env.google with
  | none => .error (.readOfNullish "window.google" "maps")
  | some g => .ok (g.Size (.num (.real 30)) (.num (.real 30)))

/-- The `label` prop expression of a marker. -/
def markerLabel (isMobile : Bool) (place : JSVal) : Except JSError JSVal :=
  if isMobile then .ok .undefined
  else do
    let name ← place.get "place" "name"
    pure (.obj [("text", name), ("color", .str "#333"),
      ("fontSize", .str "12px"), ("fontWeight", .str "bold")])

/-- Body of the `places.map` callback: the `Marker` element for `place`
at index `i`; props are evaluated in source order. -/
def renderMarker (env : Env) (isMobile : Bool) (place : JSVal) (i : Nat) :
    Except JSError Element := do
  let latitude ← place.get "place" "latitude"
  let longitude ← place.get "place" "longitude"
  let position := JSVal.obj [("lat", .num (Number latitude)), ("lng", .num (Number longitude))]
  let scaledSize ← newMarkerSize env
  let icon := JSVal.obj [("url", .str markerIconUrl), ("scaledSize", scaledSize)]
  let label ← markerLabel isMobile place
  pure (.node "Marker" (some i) [("position", position), ("icon", icon), ("label", label)] [])

/-- The call `entries.map((place, i) => <Marker .../>)` from index `i` on:
entries are visited in order and the first exception aborts the map. -/
def mapMarkers (env : Env) (isMobile : Bool) : List JSVal → Nat → Except JSError (List Element)
  | [], _ => .ok []
  | place :: rest, i => do
    let m ← renderMarker env isMobile place i
    let ms ← mapMarkers env isMobile rest (i + 1)
    pure (m :: ms)

/-- The children expression `places?.map(...)`: no children when `places`
is `null` (or `undefined`). -/
def markerChildren (env : Env) (isMobile : Bool) : PlacesProp → Except JSError (List Element)
  | .array entries => mapMarkers env isMobile entries 0
  | _ => .ok []

/-- The component `Map`: evaluation of its body down to the returned
element tree. The `onLoad` prop is the function `handleMapLoad`; the
`onDragEnd` prop is the anonymous arrow `(e) => handleDragEnd(e)`, whose
behaviour is `onDragEnd` below. -/
def Map (env : Env) (props : MapProps) : Except JSError Element := do
  let coordinates := props.coordinates.orDefault defaultCenter
  let places := match props.places with
    | .undefined => PlacesProp.array []
    | p => p
  let classes := env.classes
  let isMobile := useMediaQuery (.minWidth 600) env.viewportWidth
  let apiKey := env.apiKey
  let markers ← markerChildren env isMobile places
  pure (.node "div" none [("className", lookupProp "mapContainer" classes)] [
    .node "LoadScript" none [("googleMapsApiKey", apiKey)] [
      .node "GoogleMap" none
        [("mapContainerStyle", containerStyle),
         ("center", coordinates),
         ("zoom", .num (.real 14)),
         ("onLoad", .fn "handleMapLoad"),
         ("onDragEnd", .fn ""),
         ("onClick", props.onChildClick)]
        markers]])

/-! ### The drag-end handler -/

/-- SDK `LatLng` object, given by what its methods return. -/
structure SDKLatLng where
  lat : JSVal
  lng : JSVal
  toJSON : JSVal

/-- SDK `LatLngBounds` object, given by what its methods return. -/
structure SDKLatLngBounds where
  getNorthEast : SDKLatLng
  getSouthWest : SDKLatLng

/-- SDK map object, given by what its methods return. -/
structure SDKMap where
  getCenter : SDKLatLng
  getBounds : SDKLatLngBounds

/-- Observable events of a handler run: a method call on an SDK object, or
an invocation of the function bound to a callback prop with an argument. -/
inductive Event where
  | sdkCall (method : String)
  | callback (prop : String) (arg : JSVal)

/-- Whether the event is an invocation of a parent callback. -/
def Event.isCallback : Event → Bool
  | .callback _ _ => true
  | .sdkCall _ => false

/-- The handler `handleDragEnd(map)`, run from the trace `tr`: the
extended trace and the completion (normal, or the exception raised). The
arguments of a call are evaluated before the callee is checked to be
callable. The argument is `none` when the handler is called with
`undefined`. -/
def handleDragEnd (props : MapProps) (map : Option SDKMap) (tr : List Event) :
    List Event × Except JSError Unit :=
  match map with
  | none => (tr, .error (.readOfNullish "map" "getCenter"))
  | some m =>
    let newCenter := m.getCenter
    let tr := tr ++ [.sdkCall "getCenter"]
    let center := JSVal.obj [("lat", newCenter.lat), ("lng", newCenter.lng)]
    let tr := tr ++ [.sdkCall "lat", .sdkCall "lng"]
    if props.setCoordinates.isFunction then
      let tr := tr ++ [.callback "setCoordinates" center]
      let bounds := m.getBounds
      let tr := tr ++ [.sdkCall "getBounds"]
      let box := JSVal.obj [("ne", bounds.getNorthEast.toJSON), ("sw", bounds.getSouthWest.toJSON)]
      let tr := tr ++ [.sdkCall "getNorthEast", .sdkCall "toJSON",
        .sdkCall "getSouthWest", .sdkCall "toJSON"]
      if props.setBounds.isFunction then
        (tr ++ [.callback "setBounds" box], .ok ())
      else (tr, .error (.notAFunction "setBounds"))
    else (tr, .error (.notAFunction "setCoordinates"))

/-- The `onDragEnd` prop `(e) => handleDragEnd(e)`. -/
def onDragEnd (props : MapProps) (e : Option SDKMap) (tr : List Event) :
    List Event × Except JSError Unit :=
  handleDragEnd props e tr

/-! ## `components/Header/Header.jsx` -/

/-- The component `Header`: it declares no parameter, so the props React
passes are not read; `classes` is what `useStyles()` returns (from
`./styles`). -/
def Header (classes : List (String × JSVal)) (_props : JSVal) : Element :=
  .node "AppBar" none [("position", .str "static")] [
    .node "Toolbar" none [("className", lookupProp "toolbar" classes)] [
      .node "Typography" none
        [("variant", .str "h5"), ("className", lookupProp "title" classes)]
        [.text "Aux1Tr4vel"],
      .node "Box" none [("display", .str "flex")] [
        .node "Typography" none
          [("variant", .str "h6"), ("className", lookupProp "title" classes)]
          [.text "Explore New Places"],
        .node "div" none [("className", lookupProp "search" classes)] [
          .node "div" none [("className", lookupProp "searchIcon" classes)] [
            .node "SearchIcon" none [] []],
          .node "InputBase" none
            [("placeholder", .str "Search…"),
             ("classes", .obj [("root", lookupProp "inputRoot" classes),
                               ("input", lookupProp "inputInput" classes)])]
            []]]]]

/-! ## Concrete inputs -/

/-- A loaded SDK whose `Size` objects record their width and height. -/
def sampleSDK : GoogleSDK :=
  ⟨fun w h => .obj [("width", w), ("height", h)]⟩

/-- Two place records: one with string coordinates, one with numbers. -/
def samplePlaces : List JSVal :=
  [.obj [("name", .str "Red Fort"), ("latitude", .str "28.6562"),
         ("longitude", .str "77.2410")],
   .obj [("name", .str "India Gate"), ("latitude", .num (.real 28.6129)),
         ("longitude", .num (.real 77.2295))]]

/-- A place record without `latitude` and with a non-numeric `longitude`. -/
def malformedPlace : JSVal :=
  .obj [("name", .str "Nowhere"), ("longitude", .str "abc")]

/-- A place record whose `latitude` is `null` and whose `longitude` is the
empty string. -/
def nullPlace : JSVal :=
  .obj [("name", .str "Null Island"), ("latitude", .null), ("longitude", .str "")]

/-- Class names as `useStyles()` of `Map/styles` could return them. -/
def sampleClasses : List (String × JSVal) :=
  [("mapContainer", .str "makeStyles-mapContainer-1")]

/-- Viewport 1280 px wide, SDK loaded. -/
def desktopEnv : Env := ⟨some sampleSDK, 1280, .str "key", sampleClasses⟩

/-- Viewport 375 px wide, SDK loaded. -/
def phoneEnv : Env := ⟨some sampleSDK, 375, .str "key", sampleClasses⟩

/-- Viewport exactly 600 px wide, SDK loaded. -/
def boundaryEnv : Env := ⟨some sampleSDK, 600, .str "key", sampleClasses⟩

/-- Viewport 1280 px wide, `window.google` absent. -/
def noSdkEnv : Env := ⟨none, 1280, .str "key", sampleClasses⟩

/-- Props with the two sample places and both callbacks supplied. -/
def sampleProps : MapProps :=
  ⟨.undefined, .array samplePlaces, .fn "setCoordinates", .fn "setBounds", .undefined⟩

/-- SDK map with center (12, 34) and bounds ne (13, 35), sw (11, 33). -/
def sampleMap : SDKMap :=
  ⟨⟨.num (.real 12), .num (.real 34),
      .obj [("lat", .num (.real 12)), ("lng", .num (.real 34))]⟩,
   ⟨⟨.num (.real 13), .num (.real 35),
       .obj [("lat", .num (.real 13)), ("lng", .num (.real 35))]⟩,
    ⟨.num (.real 11), .num (.real 33),
       .obj [("lat", .num (.real 11)), ("lng", .num (.real 33))]⟩⟩⟩

/-- Props with `coordinates` supplied and `places` omitted. -/
def centeredProps : MapProps :=
  ⟨.obj [("lat", .num (.real 12)), ("lng", .num (.real 34))], .undefined,
   .fn "setCoordinates", .fn "setBounds", .undefined⟩

/-- Props whose only place is `malformedPlace`. -/
def malformedProps : MapProps :=
  ⟨.undefined, .array [malformedPlace], .fn "setCoordinates", .fn "setBounds", .undefined⟩

/-- Props whose only place is `nullPlace`. -/
def nullProps : MapProps :=
  ⟨.undefined, .array [nullPlace], .fn "setCoordinates", .fn "setBounds", .undefined⟩

/-- Props with `setCoordinates` supplied and `setBounds` omitted. -/
def noSetBoundsProps : MapProps :=
  ⟨.undefined, .undefined, .fn "setCoordinates", .undefined, .undefined⟩

/-- Props with `setBounds` supplied and `setCoordinates` omitted. -/
def noSetCoordinatesProps : MapProps :=
  ⟨.undefined, .undefined, .undefined, .fn "setBounds", .undefined⟩

/-! ## Lemmas on the embedding -/

/-- A property read on a value that is neither `undefined` nor `null` succeeds. -/
theorem get_of_not_nullish (p : JSVal) (b k : String) (h : p.isNullish = false) :
    p.get b k = .ok (p.ownProp k) := by
  simp [JSVal.get, h]

/-- Closed form of the marker rendered for an object entry once the SDK is loaded. -/
theorem renderMarker_ok (env : Env) (g : GoogleSDK) (isMobile : Bool) (p : JSVal) (i : Nat)
    (hsdk : env.google = some g) (hp : p.isNullish = false) :
    renderMarker env isMobile p i = .ok (.node "Marker" (some i)
      [("position", .obj [("lat", .num (Number (p.ownProp "latitude"))),
                          ("lng", .num (Number (p.ownProp "longitude")))]),
       ("icon", .obj [("url", .str markerIconUrl),
                      ("scaledSize", g.Size (.num (.real 30)) (.num (.real 30)))]),
       ("label", if isMobile then .undefined
                 else .obj [("text", p.ownProp "name"), ("color", .str "#333"),
                            ("fontSize", .str "12px"), ("fontWeight", .str "bold")])] []) := by
  cases isMobile <;>
    simp [renderMarker, markerLabel, newMarkerSize, hsdk, get_of_not_nullish _ _ _ hp,
      bind, Except.bind, pure, Except.pure]

/-- A rendered marker is a childless `Marker` element. -/
theorem findAll_of_renderMarker (env : Env) (isMobile : Bool) (p : JSVal) (i : Nat) (m : Element)
    (ty : String) (h : renderMarker env isMobile p i = .ok m) :
    m.findAll ty = if "Marker" = ty then [m] else [] := by
  simp only [renderMarker, bind, Except.bind, pure, Except.pure] at h
  repeat' split at h
  all_goals (cases h; try simp [Element.findAll, findAllList])

/-- The `map` call succeeds when every entry can be rendered, and yields the
marker of each entry at its index. -/
theorem mapMarkers_ok (env : Env) (isMobile : Bool) :
    ∀ (xs : List JSVal) (k : Nat), (∀ p ∈ xs, p.isNullish = false ∧ env.google ≠ none) →
      ∃ ms, mapMarkers env isMobile xs k = .ok ms ∧ ms.length = xs.length ∧
        (∀ i p, xs[i]? = some p →
          ∃ m, ms[i]? = some m ∧ renderMarker env isMobile p (k + i) = .ok m) ∧
        ∀ ty, findAllList ty ms = if "Marker" = ty then ms else [] := by
  intro xs
  induction xs with
  | nil =>
    intro k _
    exact ⟨[], rfl, rfl, by intro i p h; simp at h, by intro ty; simp [findAllList]⟩
  | cons x rest ih =>
    intro k hall
    have hx : x.isNullish = false := (hall x (List.mem_cons_self _ _)).1
    obtain ⟨g, hsdk⟩ : ∃ g, env.google = some g :=
      Option.ne_none_iff_exists'.mp (hall x (List.mem_cons_self _ _)).2
    have hrest : ∀ p ∈ rest, p.isNullish = false ∧ env.google ≠ none :=
      fun p hp => hall p (List.mem_cons_of_mem _ hp)
    obtain ⟨ms, hms, hlen, hidx, hfind⟩ := ih (k + 1) hrest
    obtain ⟨m0, hm⟩ : ∃ m0, renderMarker env isMobile x k = .ok m0 :=
      ⟨_, renderMarker_ok env g isMobile x k hsdk hx⟩
    refine ⟨m0 :: ms, ?_, ?_, ?_, ?_⟩
    · simp only [mapMarkers, bind, Except.bind, pure, Except.pure, hm, hms]
    · simp [hlen]
    · intro i p hi
      cases i with
      | zero =>
        simp only [List.getElem?_cons_zero, Option.some.injEq] at hi
        subst hi
        exact ⟨m0, by simp, by simpa using hm⟩
      | succ j =>
        simp only [List.getElem?_cons_succ] at hi
        obtain ⟨m, hmj, hrm⟩ := hidx j p hi
        refine ⟨m, by simpa using hmj, ?_⟩
        have : k + (j + 1) = k + 1 + j := by omega
        rw [this]; exact hrm
    · intro ty
      have h1 := findAll_of_renderMarker env isMobile x k m0 ty hm
      simp only [findAllList, h1, hfind ty]
      split <;> simp

/-- Closed form of the tree returned by `Map` when every marker can be rendered. -/
theorem Map_ok (env : Env) (props : MapProps)
    (hentries : ∀ xs, props.places = .array xs →
      ∀ p ∈ xs, p.isNullish = false ∧ env.google ≠ none) :
    ∃ ms, Map env props = .ok
        (.node "div" none [("className", lookupProp "mapContainer" env.classes)] [
          .node "LoadScript" none [("googleMapsApiKey", env.apiKey)] [
            .node "GoogleMap" none
              [("mapContainerStyle", containerStyle),
               ("center", props.coordinates.orDefault defaultCenter),
               ("zoom", .num (.real 14)),
               ("onLoad", .fn "handleMapLoad"),
               ("onDragEnd", .fn ""),
               ("onClick", props.onChildClick)]
              ms]]) ∧
      (∀ ty, findAllList ty ms = if "Marker" = ty then ms else []) ∧
      (∀ xs, props.places = .array xs → ms.length = xs.length ∧
        ∀ i p, xs[i]? = some p → ∃ m, ms[i]? = some m ∧
          renderMarker env (useMediaQuery (.minWidth 600) env.viewportWidth) p i = .ok m) := by
  cases hpl : props.places with
  | undefined =>
    refine ⟨[], ?_, by intro ty; simp [findAllList], ?_⟩
    · simp [Map, hpl, markerChildren, mapMarkers, bind, Except.bind, pure, Except.pure]
    · intro xs hxs; cases hxs
  | null =>
    refine ⟨[], ?_, by intro ty; simp [findAllList], ?_⟩
    · simp [Map, hpl, markerChildren, bind, Except.bind, pure, Except.pure]
    · intro xs hxs; cases hxs
  | array ys =>
    obtain ⟨ms, hms, hlen, hidx, hfind⟩ :=
      mapMarkers_ok env (useMediaQuery (.minWidth 600) env.viewportWidth) ys 0
        (hentries ys hpl)
    refine ⟨ms, ?_, hfind, ?_⟩
    · simp [Map, hpl, markerChildren, hms, bind, Except.bind, pure, Except.pure]
    · intro xs hxs
      cases hxs
      refine ⟨hlen, ?_⟩
      intro i p hi
      obtain ⟨m, h1, h2⟩ := hidx i p hi
      exact ⟨m, h1, by simpa using h2⟩

/-- C1. With the SDK loaded and every entry of `places` an object, `Map`
renders exactly one `Marker` per entry, in order: the markers are as many
as the entries, and the i-th marker has key `i` and position
`{lat: Number(places[i].latitude), lng: Number(places[i].longitude)}`. -/
theorem Map_one_marker_per_place (env : Env) (props : MapProps) (g : GoogleSDK)
    (xs : List JSVal) (hsdk : env.google = some g) (hplaces : props.places = .array xs)
    (hentries : ∀ p ∈ xs, p.isNullish = false) :
    ∃ tree, Map env props = .ok tree ∧
      (tree.findAll "Marker").length = xs.length ∧
      ∀ (i : Nat) (p : JSVal), xs[i]? = some p →
        ∃ m : Element, (tree.findAll "Marker")[i]? = some m ∧ m.key = some i ∧
          m.prop "position" =
            .obj [("lat", .num (Number (p.ownProp "latitude"))),
                  ("lng", .num (Number (p.ownProp "longitude")))] := by
  have hent : ∀ ys, props.places = .array ys →
      ∀ p ∈ ys, p.isNullish = false ∧ env.google ≠ none := by
    intro ys hys p hp
    rw [hplaces] at hys
    cases hys
    exact ⟨hentries p hp, by simp [hsdk]⟩
  obtain ⟨ms, hmap, hfind, hms⟩ := Map_ok env props hent
  obtain ⟨hlen, hidx⟩ := hms xs hplaces
  refine ⟨_, hmap, ?_, ?_⟩
  · simp [Element.findAll, findAllList, hfind "Marker", hlen]
  · intro i p hi
    obtain ⟨m, h1, h2⟩ := hidx i p hi
    have hp : p.isNullish = false := hentries p (List.getElem?_mem hi)
    rw [renderMarker_ok env g _ p i hsdk hp] at h2
    refine ⟨m, ?_, ?_, ?_⟩
    · simpa [Element.findAll, findAllList, hfind "Marker"] using h1
    · cases h2; rfl
    · cases h2; simp [Element.prop, lookupProp]

/-- C1 at the two sample places on the desktop viewport. -/
theorem Map_one_marker_per_place_witness :
    desktopEnv.google = some sampleSDK ∧ sampleProps.places = .array samplePlaces ∧
    (∀ p ∈ samplePlaces, p.isNullish = false) ∧
    ∃ tree, Map desktopEnv sampleProps = .ok tree ∧
      (tree.findAll "Marker").length = samplePlaces.length :=
  have h : ∀ p ∈ samplePlaces, p.isNullish = false := by
    simp [samplePlaces, JSVal.isNullish]
  ⟨rfl, rfl, h,
    (Map_one_marker_per_place desktopEnv sampleProps sampleSDK samplePlaces rfl rfl h).imp
      (fun _ ht => ⟨ht.1, ht.2.1⟩)⟩

/-- C2. With the SDK loaded and a non-empty `places` list of objects:
at viewport width at least 600 px every rendered marker has label
`undefined`; below 600 px the i-th marker has the label
`{text: places[i].name, color: "#333", fontSize: "12px", fontWeight: "bold"}`. -/
theorem Map_marker_labels (env : Env) (props : MapProps) (g : GoogleSDK)
    (xs : List JSVal) (hsdk : env.google = some g) (hplaces : props.places = .array xs)
    (hne : xs ≠ []) (hentries : ∀ p ∈ xs, p.isNullish = false) :
    ∃ tree, Map env props = .ok tree ∧
      tree.findAll "Marker" ≠ [] ∧
      (tree.findAll "Marker").length = xs.length ∧
      (600 ≤ env.viewportWidth →
        ∀ m ∈ tree.findAll "Marker", m.prop "label" = .undefined) ∧
      (env.viewportWidth < 600 →
        ∀ (i : Nat) (p : JSVal), xs[i]? = some p →
          ∃ m : Element, (tree.findAll "Marker")[i]? = some m ∧
            m.prop "label" =
              .obj [("text", p.ownProp "name"), ("color", .str "#333"),
                    ("fontSize", .str "12px"), ("fontWeight", .str "bold")]) := by
  have hent : ∀ ys, props.places = .array ys →
      ∀ p ∈ ys, p.isNullish = false ∧ env.google ≠ none := by
    intro ys hys p hp
    rw [hplaces] at hys
    cases hys
    exact ⟨hentries p hp, by simp [hsdk]⟩
  obtain ⟨ms, hmap, hfind, hms⟩ := Map_ok env props hent
  obtain ⟨hlen, hidx⟩ := hms xs hplaces
  have hall : (Element.node "div" none [("className", lookupProp "mapContainer" env.classes)] [
          .node "LoadScript" none [("googleMapsApiKey", env.apiKey)] [
            .node "GoogleMap" none
              [("mapContainerStyle", containerStyle),
               ("center", props.coordinates.orDefault defaultCenter),
               ("zoom", .num (.real 14)),
               ("onLoad", .fn "handleMapLoad"),
               ("onDragEnd", .fn ""),
               ("onClick", props.onChildClick)]
              ms]]).findAll "Marker" = ms := by
    simp [Element.findAll, findAllList, hfind "Marker"]
  refine ⟨_, hmap, ?_, ?_, ?_, ?_⟩
  · rw [hall]
    intro h
    rw [h] at hlen
    exact hne (List.length_eq_zero.mp hlen.symm)
  · rw [hall]; exact hlen
  · intro hw m hm
    rw [hall] at hm
    obtain ⟨i, hi⟩ := List.getElem?_of_mem hm
    have hix : i < xs.length := by
      have := (List.getElem?_eq_some.mp hi).1
      omega
    obtain ⟨m', h1, h2⟩ := hidx i xs[i] (List.getElem?_eq_getElem hix)
    rw [hi] at h1
    cases h1
    rw [renderMarker_ok env g _ _ i hsdk (hentries _ (List.getElem_mem _))] at h2
    cases h2
    simp [Element.prop, lookupProp, useMediaQuery, hw]
  · intro hw i p hi
    obtain ⟨m, h1, h2⟩ := hidx i p hi
    rw [renderMarker_ok env g _ p i hsdk (hentries p (List.getElem?_mem hi))] at h2
    refine ⟨m, by rw [hall]; exact h1, ?_⟩
    cases h2
    have : ¬ 600 ≤ env.viewportWidth := by omega
    simp [Element.prop, lookupProp, useMediaQuery, this]

/-- C2 at the two sample places, at widths 600 px and 375 px. -/
theorem Map_marker_labels_witness :
    (boundaryEnv.google = some sampleSDK ∧ phoneEnv.google = some sampleSDK ∧
      sampleProps.places = .array samplePlaces ∧ samplePlaces ≠ [] ∧
      (∀ p ∈ samplePlaces, p.isNullish = false) ∧
      600 ≤ boundaryEnv.viewportWidth ∧ phoneEnv.viewportWidth < 600) ∧
    (∃ tree, Map boundaryEnv sampleProps = .ok tree ∧ tree.findAll "Marker" ≠ [] ∧
      ∀ m ∈ tree.findAll "Marker", m.prop "label" = .undefined) ∧
    (∃ tree, Map phoneEnv sampleProps = .ok tree ∧
      ∃ m : Element, (tree.findAll "Marker")[0]? = some m ∧
        m.prop "label" =
          .obj [("text", .str "Red Fort"), ("color", .str "#333"),
                ("fontSize", .str "12px"), ("fontWeight", .str "bold")]) :=
  have h : ∀ p ∈ samplePlaces, p.isNullish = false := by
    simp [samplePlaces, JSVal.isNullish]
  have hne : samplePlaces ≠ [] := by simp [samplePlaces]
  ⟨⟨rfl, rfl, rfl, hne, h, by decide, by decide⟩,
    (Map_marker_labels boundaryEnv sampleProps sampleSDK samplePlaces rfl rfl hne h).imp
      (fun _ ht => ⟨ht.1, ht.2.1, ht.2.2.2.1 (by decide)⟩),
    (Map_marker_labels phoneEnv sampleProps sampleSDK samplePlaces rfl rfl hne h).imp
      (fun _ ht => ⟨ht.1, ht.2.2.2.2 (by decide) 0 _ rfl⟩)⟩

/-- C8 (evaluation). On a 375 px viewport the markers carry the name
label, and on a 1280 px viewport their label is `undefined`: the reverse
of what the comments on `isMobile` and on the `label` prop say. -/
theorem Map_labels_on_phone_and_desktop :
    (∃ tree, Map phoneEnv sampleProps = .ok tree ∧
      (tree.findAll "Marker").map (fun m => m.prop "label") =
        [.obj [("text", .str "Red Fort"), ("color", .str "#333"),
               ("fontSize", .str "12px"), ("fontWeight", .str "bold")],
         .obj [("text", .str "India Gate"), ("color", .str "#333"),
               ("fontSize", .str "12px"), ("fontWeight", .str "bold")]]) ∧
    (∃ tree, Map desktopEnv sampleProps = .ok tree ∧
      (tree.findAll "Marker").map (fun m => m.prop "label") = [.undefined, .undefined]) ∧
    useMediaQuery (.minWidth 600) phoneEnv.viewportWidth = false ∧
    useMediaQuery (.minWidth 600) desktopEnv.viewportWidth = true :=
  ⟨⟨_, rfl, rfl⟩, ⟨_, rfl, rfl⟩, rfl, rfl⟩

/-- C4. Whenever every marker can be rendered (each entry of `places`
is an object and the SDK is loaded; nothing is required when there is no
entry), the render yields exactly one `GoogleMap` element; its `center` is
the fallback `{lat: 28.6139, lng: 77.209}` when `coordinates` is
`undefined`, it is the passed value unchanged otherwise, and its `zoom` is
14 in both cases. -/
theorem Map_center_and_zoom (env : Env) (props : MapProps)
    (hentries : ∀ xs, props.places = .array xs →
      ∀ p ∈ xs, p.isNullish = false ∧ env.google ≠ none) :
    ∃ tree canvas, Map env props = .ok tree ∧ tree.findAll "GoogleMap" = [canvas] ∧
      (props.coordinates = .undefined →
        canvas.prop "center" =
          .obj [("lat", .num (.real 28.6139)), ("lng", .num (.real 77.209))]) ∧
      (props.coordinates ≠ .undefined → canvas.prop "center" = props.coordinates) ∧
      canvas.prop "zoom" = .num (.real 14) := by
  obtain ⟨ms, hmap, hfind, _⟩ := Map_ok env props hentries
  have hnone : findAllList "GoogleMap" ms = [] := by
    simpa using hfind "GoogleMap"
  refine ⟨_, .node "GoogleMap" none
      [("mapContainerStyle", containerStyle),
       ("center", props.coordinates.orDefault defaultCenter),
       ("zoom", .num (.real 14)),
       ("onLoad", .fn "handleMapLoad"),
       ("onDragEnd", .fn ""),
       ("onClick", props.onChildClick)] ms, hmap, ?_, ?_, ?_, ?_⟩
  · simp [Element.findAll, findAllList, hnone]
  · intro hc
    simp [Element.prop, lookupProp, hc, JSVal.orDefault, defaultCenter]
  · intro hc
    cases hcoord : props.coordinates <;>
      simp_all [Element.prop, lookupProp, JSVal.orDefault]
  · simp [Element.prop, lookupProp]

/-- C4 with `coordinates` omitted, and with `coordinates` supplied before
the SDK has loaded. -/
theorem Map_center_and_zoom_witness :
    ((∀ xs, sampleProps.places = .array xs →
        ∀ p ∈ xs, p.isNullish = false ∧ desktopEnv.google ≠ none) ∧
      (∀ xs, centeredProps.places = .array xs →
        ∀ p ∈ xs, p.isNullish = false ∧ noSdkEnv.google ≠ none) ∧
      sampleProps.coordinates = .undefined ∧ centeredProps.coordinates ≠ .undefined) ∧
    (∃ tree canvas, Map desktopEnv sampleProps = .ok tree ∧
      tree.findAll "GoogleMap" = [canvas] ∧
      canvas.prop "center" =
        .obj [("lat", .num (.real 28.6139)), ("lng", .num (.real 77.209))] ∧
      canvas.prop "zoom" = .num (.real 14)) ∧
    (∃ tree canvas, Map noSdkEnv centeredProps = .ok tree ∧
      tree.findAll "GoogleMap" = [canvas] ∧
      canvas.prop "center" = .obj [("lat", .num (.real 12)), ("lng", .num (.real 34))] ∧
      canvas.prop "zoom" = .num (.real 14)) :=
  have h1 : ∀ xs, sampleProps.places = .array xs →
      ∀ p ∈ xs, p.isNullish = false ∧ desktopEnv.google ≠ none := by
    intro xs hxs
    cases hxs
    simp [samplePlaces, JSVal.isNullish, desktopEnv]
  have h2 : ∀ xs, centeredProps.places = .array xs →
      ∀ p ∈ xs, p.isNullish = false ∧ noSdkEnv.google ≠ none := by
    intro xs hxs
    cases hxs
  have h3 : centeredProps.coordinates ≠ .undefined := by
    intro h
    cases h
  ⟨⟨h1, h2, rfl, h3⟩,
    (Map_center_and_zoom desktopEnv sampleProps h1).imp
      (fun _ ht => ht.imp (fun _ hc => ⟨hc.1, hc.2.1, hc.2.2.1 rfl, hc.2.2.2.2⟩)),
    (Map_center_and_zoom noSdkEnv centeredProps h2).imp
      (fun _ ht => ht.imp (fun _ hc => ⟨hc.1, hc.2.1, hc.2.2.2.1 h3, hc.2.2.2.2⟩))⟩

/-- C5 (evaluation). With `window.google` absent, rendering `Map` with the
two sample places raises the TypeError of reading `maps` of `undefined`
while the first marker's `icon` prop is evaluated; with `places` omitted
the same render completes. -/
theorem Map_raises_without_sdk :
    Map noSdkEnv sampleProps = .error (.readOfNullish "window.google" "maps") ∧
    (∃ tree, Map noSdkEnv noSetBoundsProps = .ok tree ∧ tree.findAll "Marker" = []) :=
  ⟨rfl, _, rfl, rfl⟩

/-- C7 (counterexample). A place whose `latitude` is `null` and whose
`longitude` is the empty string gets a marker at `{lat: 0, lng: 0}`:
neither component is NaN. -/
theorem Map_null_and_empty_coordinates_are_zero :
    (∃ tree, Map desktopEnv nullProps = .ok tree ∧
      (tree.findAll "Marker").map (fun m => m.prop "position") =
        [.obj [("lat", .num (.real 0)), ("lng", .num (.real 0))]]) ∧
    Number (nullPlace.ownProp "latitude") ≠ .nan ∧
    Number (nullPlace.ownProp "longitude") ≠ .nan :=
  ⟨⟨_, rfl, rfl⟩, by decide, by decide⟩

/-- C7 (amended). With the SDK loaded, every entry of `places` that is an
object still gets its marker. A coordinate that is missing (`undefined`)
or a string that is not a numeric literal makes the corresponding
component of the marker's position NaN; a coordinate that is `null` or the
empty string makes it 0. -/
theorem Map_marker_position_NaN (env : Env) (props : MapProps) (g : GoogleSDK)
    (xs : List JSVal) (hsdk : env.google = some g) (hplaces : props.places = .array xs)
    (hentries : ∀ p ∈ xs, p.isNullish = false) :
    ∃ tree, Map env props = .ok tree ∧
      (tree.findAll "Marker").length = xs.length ∧
      ∀ (i : Nat) (p : JSVal), xs[i]? = some p →
        ∃ m : Element, (tree.findAll "Marker")[i]? = some m ∧
          ((p.ownProp "latitude" = .undefined ∨
              ∃ s, p.ownProp "latitude" = .str s ∧ parseStringNumericLiteral s.toList = none) →
            (m.prop "position").ownProp "lat" = .num .nan) ∧
          ((p.ownProp "longitude" = .undefined ∨
              ∃ s, p.ownProp "longitude" = .str s ∧ parseStringNumericLiteral s.toList = none) →
            (m.prop "position").ownProp "lng" = .num .nan) ∧
          ((p.ownProp "latitude" = .null ∨ p.ownProp "latitude" = .str "") →
            (m.prop "position").ownProp "lat" = .num (.real 0)) ∧
          ((p.ownProp "longitude" = .null ∨ p.ownProp "longitude" = .str "") →
            (m.prop "position").ownProp "lng" = .num (.real 0)) := by
  have hent : ∀ ys, props.places = .array ys →
      ∀ p ∈ ys, p.isNullish = false ∧ env.google ≠ none := by
    intro ys hys p hp
    rw [hplaces] at hys
    cases hys
    exact ⟨hentries p hp, by simp [hsdk]⟩
  obtain ⟨ms, hmap, hfind, hms⟩ := Map_ok env props hent
  obtain ⟨hlen, hidx⟩ := hms xs hplaces
  have hnan : ∀ v : JSVal,
      (v = .undefined ∨ ∃ s, v = .str s ∧ parseStringNumericLiteral s.toList = none) →
        Number v = .nan := by
    intro v hv
    rcases hv with rfl | ⟨s, rfl, hs⟩
    · rfl
    · show StringToNumber s = .nan
      unfold StringToNumber
      rw [hs]
  have hzero : ∀ v : JSVal, (v = .null ∨ v = .str "") → Number v = .real 0 := by
    intro v hv
    rcases hv with rfl | rfl <;> rfl
  refine ⟨_, hmap, ?_, ?_⟩
  · simp [Element.findAll, findAllList, hfind "Marker", hlen]
  · intro i p hi
    obtain ⟨m, h1, h2⟩ := hidx i p hi
    rw [renderMarker_ok env g _ p i hsdk (hentries p (List.getElem?_mem hi))] at h2
    refine ⟨m, ?_, ?_, ?_, ?_, ?_⟩
    · simpa [Element.findAll, findAllList, hfind "Marker"] using h1
    · intro hv
      cases h2
      show JSVal.num (Number (p.ownProp "latitude")) = .num .nan
      rw [hnan _ hv]
    · intro hv
      cases h2
      show JSVal.num (Number (p.ownProp "longitude")) = .num .nan
      rw [hnan _ hv]
    · intro hv
      cases h2
      show JSVal.num (Number (p.ownProp "latitude")) = .num (.real 0)
      rw [hzero _ hv]
    · intro hv
      cases h2
      show JSVal.num (Number (p.ownProp "longitude")) = .num (.real 0)
      rw [hzero _ hv]

/-- C7 (amended) at a place without `latitude` and with `longitude` "abc". -/
theorem Map_marker_position_NaN_witness :
    (desktopEnv.google = some sampleSDK ∧ malformedProps.places = .array [malformedPlace] ∧
      (∀ p ∈ [malformedPlace], p.isNullish = false) ∧
      malformedPlace.ownProp "latitude" = .undefined ∧
      malformedPlace.ownProp "longitude" = .str "abc" ∧
      parseStringNumericLiteral "abc".toList = none) ∧
    ∃ tree, Map desktopEnv malformedProps = .ok tree ∧
      ∃ m : Element, (tree.findAll "Marker")[0]? = some m ∧
        (m.prop "position").ownProp "lat" = .num .nan ∧
        (m.prop "position").ownProp "lng" = .num .nan :=
  have h : ∀ p ∈ [malformedPlace], p.isNullish = false := by
    simp [malformedPlace, JSVal.isNullish]
  have habc : parseStringNumericLiteral "abc".toList = none := by decide
  ⟨⟨rfl, rfl, h, rfl, rfl, habc⟩,
    (Map_marker_position_NaN desktopEnv malformedProps sampleSDK [malformedPlace] rfl rfl h).imp
      (fun _ ht =>
        ⟨ht.1, (ht.2.2 0 malformedPlace rfl).imp
          (fun _ hm => ⟨hm.1, hm.2.1 (Or.inl rfl), hm.2.2.1 (Or.inr ⟨"abc", rfl, habc⟩)⟩)⟩)⟩

/-- C3. With both callbacks supplied, `handleDragEnd(map)` completes
normally and appends to the trace: the reads of the center, one call of
`setCoordinates` with `{lat: a, lng: b}`, the reads of the bounds, then one
call of `setBounds` with `{ne, sw}`; these two are the only callback
invocations. -/
theorem handleDragEnd_invokes_callbacks (props : MapProps) (m : SDKMap) (tr : List Event)
    (hC : props.setCoordinates.isFunction = true) (hB : props.setBounds.isFunction = true) :
    handleDragEnd props (some m) tr =
      (tr ++ [.sdkCall "getCenter", .sdkCall "lat", .sdkCall "lng",
          .callback "setCoordinates" (.obj [("lat", m.getCenter.lat), ("lng", m.getCenter.lng)]),
          .sdkCall "getBounds", .sdkCall "getNorthEast", .sdkCall "toJSON",
          .sdkCall "getSouthWest", .sdkCall "toJSON",
          .callback "setBounds"
            (.obj [("ne", m.getBounds.getNorthEast.toJSON),
                   ("sw", m.getBounds.getSouthWest.toJSON)])],
        .ok ()) ∧
    ((handleDragEnd props (some m) []).1.filter Event.isCallback =
      [.callback "setCoordinates" (.obj [("lat", m.getCenter.lat), ("lng", m.getCenter.lng)]),
       .callback "setBounds"
         (.obj [("ne", m.getBounds.getNorthEast.toJSON),
                ("sw", m.getBounds.getSouthWest.toJSON)])]) := by
  constructor
  · simp [handleDragEnd, hC, hB]
  · simp [handleDragEnd, hC, hB, Event.isCallback]

/-- C3 at center (12, 34) and bounds ne (13, 35), sw (11, 33). -/
theorem handleDragEnd_invokes_callbacks_witness :
    (sampleProps.setCoordinates.isFunction = true ∧ sampleProps.setBounds.isFunction = true) ∧
    (handleDragEnd sampleProps (some sampleMap) []).2 = .ok () ∧
    (handleDragEnd sampleProps (some sampleMap) []).1.filter Event.isCallback =
      [.callback "setCoordinates" (.obj [("lat", .num (.real 12)), ("lng", .num (.real 34))]),
       .callback "setBounds"
         (.obj [("ne", .obj [("lat", .num (.real 13)), ("lng", .num (.real 35))]),
                ("sw", .obj [("lat", .num (.real 11)), ("lng", .num (.real 33))])])] :=
  ⟨⟨rfl, rfl⟩,
    congrArg Prod.snd (handleDragEnd_invokes_callbacks sampleProps sampleMap [] rfl rfl).1,
    (handleDragEnd_invokes_callbacks sampleProps sampleMap [] rfl rfl).2⟩

/-- C6. For a callback prop that is either omitted or a function, and any
SDK map object, `handleDragEnd` raises exactly when `setCoordinates` or
`setBounds` is omitted (the TypeError of calling a non-function), and
completes normally when both are supplied. -/
theorem handleDragEnd_fails_iff_callback_missing (props : MapProps) (m : SDKMap)
    (tr : List Event)
    (hC : props.setCoordinates = .undefined ∨ props.setCoordinates.isFunction = true)
    (hB : props.setBounds = .undefined ∨ props.setBounds.isFunction = true) :
    ((∃ e, (handleDragEnd props (some m) tr).2 = .error e) ↔
      (props.setCoordinates = .undefined ∨ props.setBounds = .undefined)) ∧
    ((props.setCoordinates.isFunction = true ∧ props.setBounds.isFunction = true) →
      (handleDragEnd props (some m) tr).2 = .ok ()) ∧
    (props.setCoordinates = .undefined →
      (handleDragEnd props (some m) tr).2 = .error (.notAFunction "setCoordinates")) ∧
    (props.setCoordinates.isFunction = true → props.setBounds = .undefined →
      (handleDragEnd props (some m) tr).2 = .error (.notAFunction "setBounds")) := by
  have hfn : ∀ v : JSVal, v.isFunction = true → v ≠ .undefined := by
    intro v hv h
    rw [h] at hv
    cases hv
  have hun : JSVal.undefined.isFunction = false := rfl
  rcases hC with hC | hC <;> rcases hB with hB | hB
  · simp [handleDragEnd, hC, hB, hun]
  · simp [handleDragEnd, hC, hB, hun]
  · simp [handleDragEnd, hC, hB, hun, hfn _ hC]
  · simp [handleDragEnd, hC, hB, hfn _ hC, hfn _ hB]

/-- C6 with `setBounds` omitted, and with both callbacks supplied. -/
theorem handleDragEnd_fails_iff_callback_missing_witness :
    ((noSetBoundsProps.setCoordinates = .undefined ∨
        noSetBoundsProps.setCoordinates.isFunction = true) ∧
      (noSetBoundsProps.setBounds = .undefined ∨
        noSetBoundsProps.setBounds.isFunction = true) ∧
      (sampleProps.setCoordinates = .undefined ∨
        sampleProps.setCoordinates.isFunction = true) ∧
      (sampleProps.setBounds = .undefined ∨ sampleProps.setBounds.isFunction = true)) ∧
    (handleDragEnd noSetBoundsProps (some sampleMap) []).2 =
      .error (.notAFunction "setBounds") ∧
    (handleDragEnd sampleProps (some sampleMap) []).2 = .ok () :=
  ⟨⟨Or.inr rfl, Or.inl rfl, Or.inr rfl, Or.inr rfl⟩,
    (handleDragEnd_fails_iff_callback_missing noSetBoundsProps sampleMap []
      (Or.inr rfl) (Or.inl rfl)).2.2.2 rfl rfl,
    (handleDragEnd_fails_iff_callback_missing sampleProps sampleMap []
      (Or.inr rfl) (Or.inr rfl)).2.1 ⟨rfl, rfl⟩⟩

/-- C10. The handler is not atomic. If `setCoordinates` is a function and
`setBounds` is omitted, the run has invoked `setCoordinates` once with the
new center (and read the bounds) before it raises on `setBounds`. If
`setCoordinates` is omitted, the run raises right after reading the center:
`getBounds` is not called and `setBounds` is not invoked, whatever
`setBounds` is. -/
theorem handleDragEnd_partial_update (props : MapProps) (m : SDKMap) (tr : List Event) :
    (props.setCoordinates.isFunction = true → props.setBounds = .undefined →
      handleDragEnd props (some m) tr =
        (tr ++ [.sdkCall "getCenter", .sdkCall "lat", .sdkCall "lng",
            .callback "setCoordinates"
              (.obj [("lat", m.getCenter.lat), ("lng", m.getCenter.lng)]),
            .sdkCall "getBounds", .sdkCall "getNorthEast", .sdkCall "toJSON",
            .sdkCall "getSouthWest", .sdkCall "toJSON"],
          .error (.notAFunction "setBounds"))) ∧
    (props.setCoordinates = .undefined →
      handleDragEnd props (some m) tr =
        (tr ++ [.sdkCall "getCenter", .sdkCall "lat", .sdkCall "lng"],
          .error (.notAFunction "setCoordinates"))) := by
  have hun : JSVal.undefined.isFunction = false := rfl
  constructor
  · intro hC hB
    simp [handleDragEnd, hC, hB, hun]
  · intro hC
    simp [handleDragEnd, hC, hun]

/-- C10 with `setBounds` omitted, and with `setCoordinates` omitted. -/
theorem handleDragEnd_partial_update_witness :
    (noSetBoundsProps.setCoordinates.isFunction = true ∧
      noSetBoundsProps.setBounds = .undefined ∧
      noSetCoordinatesProps.setCoordinates = .undefined ∧
      noSetCoordinatesProps.setBounds.isFunction = true) ∧
    handleDragEnd noSetBoundsProps (some sampleMap) [] =
      ([.sdkCall "getCenter", .sdkCall "lat", .sdkCall "lng",
          .callback "setCoordinates" (.obj [("lat", .num (.real 12)), ("lng", .num (.real 34))]),
          .sdkCall "getBounds", .sdkCall "getNorthEast", .sdkCall "toJSON",
          .sdkCall "getSouthWest", .sdkCall "toJSON"],
        .error (.notAFunction "setBounds")) ∧
    handleDragEnd noSetCoordinatesProps (some sampleMap) [] =
      ([.sdkCall "getCenter", .sdkCall "lat", .sdkCall "lng"],
        .error (.notAFunction "setCoordinates")) :=
  ⟨⟨rfl, rfl, rfl, rfl⟩,
    (handleDragEnd_partial_update noSetBoundsProps sampleMap []).1 rfl rfl,
    (handleDragEnd_partial_update noSetCoordinatesProps sampleMap []).2 rfl⟩

/-- C9. The rendered tree of `Header` does not depend on its props; its
text nodes are the two titles, and it holds exactly one `InputBase`, with
placeholder `Search…` and neither a `value` nor an `onChange` prop. -/
theorem Header_is_constant (classes : List (String × JSVal)) (p q : JSVal) :
    Header classes p = Header classes q ∧
    (Header classes p).texts = ["Aux1Tr4vel", "Explore New Places"] ∧
    ∃ input : Element, (Header classes p).findAll "InputBase" = [input] ∧
      input.prop "placeholder" = .str "Search…" ∧
      input.hasProp "value" = false ∧ input.hasProp "onChange" = false :=
  ⟨rfl, rfl, _, rfl, rfl, rfl, rfl⟩

end Aux1Tr4vel
